import Mathlib

/-!
Verification of the Eloquas outreach scoring and delivery pipeline.

This file gives a shallow embedding of the scoring engine (`scoring.py`),
the spam gate and spintax template expander (`emailer.py`, `main.py`) and
the per-tenant delivery queue (`emailer.py`), and settles the specification
claims about them.

Modelling conventions:
* Python strings are Lean `String` / `List Char`; only ASCII case behaviour
  is modelled (`Char.isUpper`, `Char.toLower`).
* Python `float` arithmetic in the scoring engine is modelled over `ℚ`;
  `round(x, 1)` is modelled by round-half-to-even over `ℚ`.
* Wall-clock times (`datetime`) are integers (seconds); `timedelta(hours=1)`
  is `3600`, `timedelta(minutes=m)` is `60 * m`, and `timedelta.days` of a
  difference `d` is the floor division `Int.fdiv d 86400`.
* Randomness (`random.choice`, `random.randint`, `random.uniform`,
  `random.random`) is passed in explicitly as oracle arguments.
* A Python expression that raises (`ZeroDivisionError`) is modelled with
  `Option`, `none` being the raised exception.
-/

/-! ### Basic character and string utilities -/

/-- The `Char`s used by the spintax syntax, kept as named constants. -/
def lbrace : Char := Char.ofNat 123

/-- Closing brace character. -/
def rbrace : Char := Char.ofNat 125

/-- Pipe character, the spintax alternative separator. -/
def pipeChar : Char := Char.ofNat 124

/-- Substring test: Python `needle in hay`.  An empty needle is contained in
everything, as in Python. -/
def containsSub (needle : List Char) : List Char → Bool
  | [] => needle.isEmpty
  | c :: rest => needle.isPrefixOf (c :: rest) || containsSub needle rest

/-- Auxiliary scanner for `countOcc`: `skip` chars remain to be consumed from
the current (already counted) occurrence. -/
def countOccAux (needle : List Char) : Nat → List Char → Nat
  | _, [] => 0
  | k+1, _ :: rest => countOccAux needle k rest
  | 0, c :: rest =>
    if !needle.isEmpty && needle.isPrefixOf (c :: rest) then
      1 + countOccAux needle (needle.length - 1) rest
    else
      countOccAux needle 0 rest

/-- Python `hay.count(needle)` for a nonempty needle: number of
non-overlapping occurrences, scanning left to right. -/
def countOcc (needle hay : List Char) : Nat := countOccAux needle 0 hay

/-- Word counter for Python `len(s.split())`: number of maximal runs of
non-whitespace characters.  The boolean tracks whether we are inside a run. -/
def wordCountAux : Bool → List Char → Nat
  | _, [] => 0
  | inw, c :: rest =>
    if c.isWhitespace then wordCountAux false rest
    else (if inw then 0 else 1) + wordCountAux true rest

/-- Python `len(s.split())`. -/
def wordCount (s : List Char) : Nat := wordCountAux false s

/-- Python `str.isupper()`: at least one cased character, and every cased
character is upper case (cased is modelled as ASCII alphabetic). -/
def pyIsUpper (s : String) : Bool :=
  s.data.any (·.isAlpha) && s.data.all (fun c => !c.isAlpha || c.isUpper)

/-- Python `str.lower()` (ASCII case folding), over character lists. -/
def toLowerL (s : List Char) : List Char := s.map Char.toLower

/-- Python `max(a, b)` on rationals, kept as an `if` so that it reduces in the
kernel. -/
def ratMax (a b : ℚ) : ℚ := if a ≤ b then b else a

/-- Python `min(a, b)` on rationals. -/
def ratMin (a b : ℚ) : ℚ := if a ≤ b then a else b

/-! ### `EmailEngine.check_spam_score` (src/emailer.py lines 205-249)

The body checks divide by `len(body)`; a zero-length body raises
`ZeroDivisionError`, modelled as `none`. -/

/-- Spam words scanned for in the lowered subject line. -/
def spamWords : List String := ["free", "guarantee", "urgent"]

/-- Spam phrases scanned for in the lowered body. -/
def spamPhrases : List String := ["click here", "act now", "limited time", "risk free"]

/-- Model of `EmailEngine.check_spam_score`.  Returns `none` exactly when the
Python code raises `ZeroDivisionError` (empty body); otherwise the additive
penalty score floored at 0. -/
def checkSpamScore (subject body : String) : Option ℚ :=
  let subjectLower := toLowerL subject.data
  let s1 : ℚ := if subject.length > 100 then 2 else 0
  let s2 : ℚ := if pyIsUpper subject then 3 else 0
  let s3 : ℚ := if spamWords.any (fun w => containsSub w.data subjectLower) then 2 else 0
  if body.length = 0 then none else
  let bodyLower := toLowerL body.data
  let capsRatio : ℚ := (body.data.countP (fun c => c.isUpper) : ℚ) / (body.length : ℚ)
  let s4 : ℚ := if capsRatio > 3/10 then 2 else 0
  let s5 : ℚ := spamPhrases.foldl
    (fun acc ph => if containsSub ph.data bodyLower then acc + 3/2 else acc) 0
  let s6 : ℚ := if countOcc ("http".data) bodyLower > 3 then 2 else 0
  let s7 : ℚ := if countOcc ("!".data) bodyLower > 3 then 1 else 0
  let s8 : ℚ := if countOcc ("$".data) bodyLower > 2 then 2 else 0
  let s9 : ℚ := if containsSub ("unsubscribe".data) bodyLower then -1 else 0
  let wc := wordCount body.data
  let s10 : ℚ := if 50 < wc ∧ wc < 300 then -(1/2) else 0
  some (ratMax 0 (s1 + s2 + s3 + s4 + s5 + s6 + s7 + s8 + s9 + s10))

/-! ### `EmailEngine.process_spintax` (src/emailer.py lines 101-117)

The Python code first substitutes variables (`text.replace('{'+key+'}', value)`
per key, in dict order), then loops
`while '{' in text and '|' in text and '}' in text`, each iteration applying
`re.sub(r'\x7b([^\x7b\x7d]+\|[^\x7b\x7d]+)\x7d', choice, text)`, which replaces every
non-overlapping leftmost match by a randomly chosen pipe-separated option.
`random.choice` is modelled by an index oracle `pick : Nat → Nat` consumed by a
running draw counter; the while loop is modelled with fuel, `none` meaning the
loop has not finished within the given fuel. -/

/-- Python `text.replace(needle, rep, ...)` scanner: `skip` chars of an
already-replaced occurrence remain to be consumed.  (Python replaces an empty
needle everywhere; this model instead leaves the text unchanged, which is
irrelevant here since every needle used is a brace-wrapped key.) -/
def replaceAllAux (needle rep : List Char) : Nat → List Char → List Char
  | _, [] => []
  | k+1, _ :: rest => replaceAllAux needle rep k rest
  | 0, c :: rest =>
    if !needle.isEmpty && needle.isPrefixOf (c :: rest) then
      rep ++ replaceAllAux needle rep (needle.length - 1) rest
    else
      c :: replaceAllAux needle rep 0 rest

/-- Python `text.replace(needle, rep)`: replace all non-overlapping
occurrences, scanning left to right, without re-scanning replaced text. -/
def replaceAll (needle rep t : List Char) : List Char := replaceAllAux needle rep 0 t

/-- The literal token `'\x7b' + key + '\x7d'` used for variable substitution. -/
def varToken (key : String) : List Char := lbrace :: (key.data ++ [rbrace])

/-- The variable-substitution pass of `process_spintax`: one `str.replace` per
`(key, value)` pair, in the dictionary's iteration (insertion) order. -/
def substituteVars (vars : List (String × String)) (t : List Char) : List Char :=
  vars.foldl (fun acc kv => replaceAll (varToken kv.1) kv.2.data acc) t

/-- A character the regex class `[^\x7b\x7d]` accepts. -/
def notBrace (c : Char) : Bool := c != lbrace && c != rbrace

/-- Python `s.split('|')`. -/
def splitPipe : List Char → List (List Char)
  | [] => [[]]
  | c :: rest =>
    if c = pipeChar then
      [] :: splitPipe rest
    else
      match splitPipe rest with
      | [] => [[c]]
      | w :: ws => (c :: w) :: ws

/-- Whether a brace-free run matches `[^\x7b\x7d]+\|[^\x7b\x7d]+`: it must contain a
pipe that is neither its first nor its last character. -/
def interiorPipe (run : List Char) : Bool := ((run.drop 1).dropLast).contains pipeChar

/-- One `re.sub` pass over the text: at each `'\x7b'` the regex engine reads the
following brace-free run; if it is terminated by `'\x7d'` and matches
`[^\x7b\x7d]+\|[^\x7b\x7d]+`, the whole group is replaced by the option selected by
the oracle `pick` at the current draw counter `k` and scanning resumes after
the group; otherwise scanning advances one character.  `skip` chars of an
already-replaced group remain to be consumed.  Returns the new text and the
updated draw counter. -/
def subAux (pick : Nat → Nat) : Nat → Nat → List Char → List Char × Nat
  | k, skip+1, _ :: rest => subAux pick k skip rest
  | k, _+1, [] => ([], k)
  | k, 0, [] => ([], k)
  | k, 0, c :: rest =>
    if c = lbrace then
      let run := rest.takeWhile notBrace
      if (rest.drop run.length).head? = some rbrace && interiorPipe run then
        let opts := splitPipe run
        let rep := opts.getD (pick k % opts.length) []
        let res := subAux pick (k+1) (run.length + 1) rest
        (rep ++ res.1, res.2)
      else
        let res := subAux pick k 0 rest
        (c :: res.1, res.2)
    else
      let res := subAux pick k 0 rest
      (c :: res.1, res.2)

/-- The guard of the `while` loop: `'\x7b' in text and '|' in text and '\x7d' in
text`. -/
def spintaxGuard (t : List Char) : Bool :=
  t.contains lbrace && t.contains pipeChar && t.contains rbrace

/-- The `while` loop of `process_spintax`, with fuel: `none` means the loop
has not terminated within `n` iterations. -/
def spintaxFuel (pick : Nat → Nat) : Nat → Nat → List Char → Option (List Char)
  | 0, _, t => if spintaxGuard t then none else some t
  | n+1, k, t =>
    if spintaxGuard t then
      let res := subAux pick k 0 t
      spintaxFuel pick n res.2 res.1
    else some t

/-- Model of `EmailEngine.process_spintax`: variable substitution followed by
the spintax loop. -/
def processSpintax (vars : List (String × String)) (pick : Nat → Nat)
    (fuel : Nat) (text : String) : Option String :=
  (spintaxFuel pick fuel 0 (substituteVars vars text.data)).map String.mk

/-- The degenerate pattern `'\x7d|\x7b'` on which the expansion loop hangs. -/
def hangPattern : String := "\x7d|\x7b"

/-! ### The delivery queue (src/emailer.py lines 251-330, src/main.py lines 339-368)

`EMAIL_QUEUE_DB` and `EMAIL_HISTORY_DB` are JSON dicts mapping a tenant
(`user_id`) to a list of message records; both are modelled as association
lists in insertion order.  `random.randint(5, 30)` is an explicit `rand`
argument, `datetime.now()` an explicit `now`, and the transport outcome of
`_send_email` an oracle `ok`. -/

/-- A queued or archived message record, with the fields `queue_email`
creates plus the `sent_at` field added on success. -/
structure EmailEntry where
  id : String
  prospect_id : String
  subject : String
  body : String
  storyscore : Int
  queued_at : Int
  status : String
  attempts : Nat
  scheduled_for : Int
  sent_at : Option Int
deriving DecidableEq

/-- A JSON-dict database keyed by tenant id, in insertion order. -/
abbrev Store : Type := List (String × List EmailEntry)

/-- Python `store.get(k, [])`. -/
def storeGet (s : Store) (k : String) : List EmailEntry :=
  match s with
  | [] => []
  | (k0, v) :: rest => if k0 = k then v else storeGet rest k

/-- Python `store[k] = v` (overwrites in place, inserts at the end). -/
def storeSet (s : Store) (k : String) (v : List EmailEntry) : Store :=
  match s with
  | [] => [(k, v)]
  | (k0, w) :: rest => if k0 = k then (k0, v) :: rest else (k0, w) :: storeSet rest k v

/-- Whether any tenant's list in the store holds a record with this id. -/
def storeHasId (s : Store) (i : String) : Bool :=
  s.any (fun kv => kv.2.any (fun e => e.id = i))

/-- The queue and history databases together. -/
structure QState where
  queue : Store
  history : Store
deriving DecidableEq

/-- Hex digit for one nibble, lowercase as `hexdigest` produces. -/
def hexDigit (n : Nat) : Char := if n < 10 then Char.ofNat (48 + n) else Char.ofNat (87 + n)

/-- Render a number as exactly 32 lowercase hex characters (128 bits). -/
def toHex32 (n : Nat) : List Char :=
  (List.range 32).map (fun i => hexDigit (n / 16 ^ (31 - i) % 16))

/-- Model of `hashlib.md5(s.encode()).hexdigest()`: a deterministic 128-bit
digest of the input rendered as 32 lowercase hex characters.  Only
determinism and the output alphabet and length are relied upon, properties
the model shares with MD5; the mixing function itself is a stand-in. -/
def md5Hex (s : String) : String :=
  String.mk (toHex32 (s.data.foldl (fun a c => (a * 16777619 + c.toNat + 1) % 2 ^ 128) 5381))

/-- Model of `datetime.isoformat()` on the integer time scale: an injective
rendering of the timestamp. -/
def isoformat (t : Int) : String := toString t

/-- The message id `queue_email` assigns:
`md5(f"{user_id}{prospect_id}{now}").hexdigest()[:8]`.  Note that the
subject, body and story score do not enter the hash. -/
def emailIdOf (userId prospectId : String) (now : Int) : String :=
  String.mk ((md5Hex (userId ++ prospectId ++ isoformat now)).data.take 8)

/-- The record `queue_email` builds: status `queued`, zero attempts,
scheduled `rand` minutes from now where `rand = random.randint(5, 30)`. -/
def mkEntry (userId prospectId subject body : String) (storyscore : Int)
    (now rand : Int) : EmailEntry :=
  { id := emailIdOf userId prospectId now
    prospect_id := prospectId
    subject := subject
    body := body
    storyscore := storyscore
    queued_at := now
    status := "queued"
    attempts := 0
    scheduled_for := now + rand * 60
    sent_at := none }

/-- Model of `EmailEngine.queue_email`: append the new record to the
tenant's list (creating it if absent) and return the id.  The history store
is not touched by the source function. -/
def queueEmail (st : QState) (userId prospectId subject body : String)
    (storyscore : Int) (now rand : Int) : QState × String :=
  let entry := mkEntry userId prospectId subject body storyscore now rand
  ({ st with queue := storeSet st.queue userId (storeGet st.queue userId ++ [entry]) },
   entry.id)

/-- One message's treatment inside a dispatch sweep of
`EmailEngine.process_queue`: skip non-queued records; for due records attempt
the send, on success mark sent (returning the record to append to history and
a send count of 1), on failure increment `attempts` and either mark failed
(third failure) or reschedule one hour from the sweep time. -/
def processEntry (now : Int) (ok : EmailEntry → Bool) (e : EmailEntry) :
    EmailEntry × Option EmailEntry × Nat :=
  if e.status ≠ "queued" then (e, none, 0)
  else if e.scheduled_for ≤ now then
    if ok e then
      let e2 := { e with status := "sent", sent_at := some now }
      (e2, some e2, 1)
    else if e.attempts + 1 ≥ 3 then
      ({ e with attempts := e.attempts + 1, status := "failed" }, none, 0)
    else
      ({ e with attempts := e.attempts + 1, scheduled_for := now + 3600 }, none, 0)
  else (e, none, 0)

/-- A tenant's whole list under one sweep: updated records, the records to
append to history, and the number of successful sends. -/
def processEntries (now : Int) (ok : EmailEntry → Bool) :
    List EmailEntry → List EmailEntry × List EmailEntry × Nat
  | [] => ([], [], 0)
  | e :: rest =>
    let r := processEntry now ok e
    let rs := processEntries now ok rest
    (r.1 :: rs.1, r.2.1.toList ++ rs.2.1, r.2.2 + rs.2.2)

/-- The sweep across tenants: each tenant's list is processed and its history
list extended (the source touches `history[user_id]` only when a send
succeeded). -/
def sweepUsers (now : Int) (ok : EmailEntry → Bool) :
    Store → Store → Store × Store × Nat
  | [], hist => ([], hist, 0)
  | (u, es) :: rest, hist =>
    let r := processEntries now ok es
    let hist2 := if r.2.1.isEmpty then hist else storeSet hist u (storeGet hist u ++ r.2.1)
    let rs := sweepUsers now ok rest hist2
    ((u, r.1) :: rs.1, rs.2.1, r.2.2 + rs.2.2)

/-- Model of `EmailEngine.process_queue`: the sweep followed by the clean-up
pass that filters every record whose status is `sent` or `failed` out of the
active queue.  Returns the new queue, the new history and `emails_sent`. -/
def processQueue (now : Int) (ok : EmailEntry → Bool) (queue hist : Store) :
    Store × Store × Nat :=
  let r := sweepUsers now ok queue hist
  (r.1.map (fun kv => (kv.1, kv.2.filter (fun e => e.status ≠ "sent" ∧ e.status ≠ "failed"))),
   r.2.1, r.2.2)

/-- The transport oracle that always fails. -/
def okNever : EmailEntry → Bool := fun _ => false

/-- The transport oracle that always succeeds. -/
def okAlways : EmailEntry → Bool := fun _ => true

/-- The message states a single record can pass through across dispatch
sweeps: freshly enqueued by `queue_email`, then any number of
`process_queue` treatments. -/
inductive ReachableEntry : EmailEntry → Prop where
  | enqueued (userId prospectId subject body : String) (storyscore : Int) (now rand : Int) :
      ReachableEntry (mkEntry userId prospectId subject body storyscore now rand)
  | sweep (e : EmailEntry) (now : Int) (ok : EmailEntry → Bool) :
      ReachableEntry e → ReachableEntry (processEntry now ok e).1

/-- A freshly enqueued record, due immediately. -/
def entQ : EmailEntry := mkEntry "u" "p" "s" "b" 10 0 0

/-- `entQ` after one successful send. -/
def entSent : EmailEntry := (processEntry 0 okAlways entQ).1

/-- `entQ` after one failed attempt. -/
def entF1 : EmailEntry := (processEntry 0 okNever entQ).1

/-- `entQ` after two failed attempts. -/
def entF2 : EmailEntry := (processEntry 3600 okNever entF1).1

/-- `entQ` after three failed attempts: terminal `failed`. -/
def entF3 : EmailEntry := (processEntry 7200 okNever entF2).1

/-- A queued record that has already failed twice, due at time 0. -/
def lostEntry : EmailEntry :=
  { id := "m1", prospect_id := "p", subject := "s", body := "b", storyscore := 10,
    queued_at := 0, status := "queued", attempts := 2, scheduled_for := 0, sent_at := none }

/-- A queued record that has not failed yet, due at time 0. -/
def freshEntry : EmailEntry := { lostEntry with id := "m2", attempts := 0 }

/-- First of two enqueues in the same `now` microsecond: same tenant and
prospect, different subject and body. -/
def enq1 : QState × String := queueEmail ⟨[], []⟩ "u" "p" "subject one" "body one" 10 0 5

/-- Second enqueue, same tenant, prospect and time, different content. -/
def enq2 : QState × String := queueEmail enq1.1 "u" "p" "subject two" "body two" 12 0 17

/-! ### `mock_storyscore` and the `/send-email` gate
(src/scoring.py lines 210-239, src/main.py lines 339-368)

`calculate_storyscore` delegates to the local heuristic `mock_storyscore`
when no AI scorer is configured; the embedding models that configuration. -/

/-- Python `max(a, b)` on integers, as an `if`. -/
def intMax (a b : Int) : Int := if a ≤ b then b else a

/-- Python `min(a, b)` on integers. -/
def intMin (a b : Int) : Int := if a ≤ b then a else b

/-- Model of `mock_storyscore`: the local heuristic fallback, base 10 with
phrase bonuses, a length penalty, and a final clamp to [0, 20]. -/
def mockStoryscore (emailBody : String) : Int :=
  let lower := toLowerL emailBody.data
  let s0 : Int := 10
  let s1 := if ["noticed", "saw your", "your team", "your company"].any
      (fun w => containsSub w.data lower) then s0 + 2 else s0
  let s2 := if ["reduce", "improve", "increase", "save", "accelerate"].any
      (fun w => containsSub w.data lower) then s1 + 2 else s1
  let s3 := if ["chat", "connect", "discuss", "meeting", "call"].any
      (fun w => containsSub w.data lower) then s2 + 1 else s2
  let wc := wordCount emailBody.data
  let s4 := if wc > 150 then s3 - 2 else if wc < 50 then s3 - 1 else s3
  let s5 := if ["sap", "oracle", "dynamics", "qa", "automation"].any
      (fun w => containsSub w.data lower) then s4 + 1 else s4
  intMin (intMax s5 0) 20

/-- Model of the `/send-email` route: compute the story score, compute the
spam score, reject above the fixed threshold 5 without touching any state,
otherwise enqueue.  `Except.error` models an uncaught exception from
`check_spam_score`; the `Bool` is the `success` field of the JSON response
and the `Option String` its `email_id`. -/
def sendEmail (st : QState) (userId prospectId subject body : String)
    (now rand : Int) : Except Unit (QState × Bool × Option String) :=
  let storyscore := mockStoryscore body
  match checkSpamScore subject body with
  | none => Except.error ()
  | some s =>
    if s > 5 then Except.ok (st, false, none)
    else
      let r := queueEmail st userId prospectId subject body storyscore now rand
      Except.ok (r.1, true, some r.2)

/-! ### The scoring engine (src/scoring.py lines 16-160, 241-252)

`linkedin_auth.get_user_profile` is the external ProfileSource; its record is
an optional `LinkedInProfile`.  `random.randint(0, 5)` (shared connections),
`random.random() > 0.7` (previous-interaction bonus) and
`random.uniform(0.3, 0.9)` (engagement placeholder) form a `TrustRand`
bundle; `get_trust_components` consumes one bundle for the returned
components and `calculate_trustscore` consumes its own, exactly as each
Python call re-draws. -/

/-- The prospect fields the scoring engine reads. -/
structure Prospect where
  title : String
  email : String
deriving DecidableEq

/-- An intent signal: the timestamp as parsed by `datetime.fromisoformat`
(`none` when missing or unparsable, i.e. the `except` branch fires) and the
optional `match_score`. -/
structure Signal where
  timestamp : Option Int
  match_score : Option ℚ
deriving DecidableEq

/-- The normalized capability record the ProfileSource exposes, plus the
profile headline. -/
structure LinkedInProfile where
  completeness : ℚ
  headline_quality : ℚ
  professional_photo : Bool
  network_strength : ℚ
  headline : String
deriving DecidableEq

/-- One draw of the random values `calculate_trustscore` (via
`calculate_relationship_score`) consumes. -/
structure TrustRand where
  shared : Nat
  prevInteraction : Bool
  engagement : ℚ
deriving DecidableEq

/-- `⌊x⌋` as a named function (used to model Python `int()` truncation and
`round`). -/
def ratFloor (x : ℚ) : ℤ := ⌊x⌋

/-- Python `int(x)`: truncation toward zero. -/
def ratTrunc (x : ℚ) : ℤ := if 0 ≤ x then ratFloor x else -(ratFloor (-x))

/-- Model of `linkedin_auth.calculate_linkedin_trust_score` (the part that
matters downstream): a weighted signal combination clamped by
`min(100, max(0, int(score)))`, hence always in [0, 100]. -/
def calculateLinkedinTrustScore (p : LinkedInProfile) : Int :=
  intMin 100 (intMax 0 (ratTrunc
    (p.completeness * 0.3 + p.headline_quality * 0.3 +
     (if p.professional_photo then (100 : ℚ) else 0) * 0.2 +
     p.network_strength * 0.2)))

/-- The fixed role/domain vocabulary of `calculate_relationship_score`. -/
def commonKeywords : List String :=
  ["sap", "oracle", "dynamics", "erp", "crm", "quality", "qa", "director", "manager", "vp"]

/-- Model of `calculate_relationship_score`: base 0.3; LinkedIn and keyword
bonuses when a profile is present; shared-connection, alumni and
previous-interaction bonuses; capped at 1.0. -/
def calculateRelationshipScore (prospect : Prospect) (profile : Option LinkedInProfile)
    (shared : Nat) (prevInteraction : Bool) : ℚ :=
  let s1 : ℚ :=
    match profile with
    | none => 0.3
    | some lp =>
      let s : ℚ := 0.3 + ((calculateLinkedinTrustScore lp : ℚ) / 100) * 0.25
      let prospectKeywords :=
        commonKeywords.countP (fun kw => containsSub kw.data (toLowerL prospect.title.data))
      let userKeywords :=
        commonKeywords.countP (fun kw => containsSub kw.data (toLowerL lp.headline.data))
      if prospectKeywords > 0 ∧ userKeywords > 0 then s + 0.15 else s
  let s2 := if shared > 0 then s1 + 0.1 * ((min shared 3 : Nat) : ℚ) else s1
  let s3 := if containsSub ("alumni".data) (toLowerL prospect.title.data) then s2 + 0.2 else s2
  let s4 := if prevInteraction then s3 + 0.2 else s3
  ratMin s4 1

/-- Model of `calculate_intent_freshness`: 0.2 with no signal, 0.3 when the
timestamp does not parse, otherwise a step function of the signal age in
whole days (`timedelta.days` floors). -/
def calculateIntentFreshness (now : Int) : Option Signal → ℚ
  | none => 0.2
  | some sg =>
    match sg.timestamp with
    | none => 0.3
    | some t =>
      let daysOld := Int.fdiv (now - t) 86400
      if daysOld ≤ 1 then 1.0
      else if daysOld ≤ 3 then 0.9
      else if daysOld ≤ 7 then 0.7
      else if daysOld ≤ 14 then 0.5
      else if daysOld ≤ 30 then 0.3
      else 0.1

/-- The seniority keywords of `calculate_story_quality`. -/
def seniorityKeywords : List String := ["director", "vp", "head of", "manager"]

/-- Model of `calculate_story_quality`: 0.5 base, `0.3 + 0.7·match_score`
when a signal is present (`match_score` defaulting to 0.5), seniority bonus,
capped at 1.0. -/
def calculateStoryQuality (prospect : Prospect) (signal : Option Signal) : ℚ :=
  let s0 : ℚ :=
    match signal with
    | none => 0.5
    | some sg => 0.3 + 0.7 * sg.match_score.getD 0.5
  let s1 := if seniorityKeywords.any (fun kw => containsSub kw.data (toLowerL prospect.title.data))
    then s0 + 0.1 else s0
  ratMin s1 1

/-- The free-mail provider blocklist. -/
def freeDomains : List String := ["gmail.com", "yahoo.com", "hotmail.com", "outlook.com"]

/-- The role-account local-part patterns. -/
def rolePatterns : List String := ["info", "contact", "admin", "sales"]

/-- Model of `calculate_deliverability`: 0.9 base, −0.3 free-mail penalty,
−0.2 role-account penalty, floored at 0.1. -/
def calculateDeliverability (prospect : Prospect) : ℚ :=
  let email := prospect.email
  let hasAt := containsSub ("@".data) email.data
  let domain := if hasAt then (email.splitOn "@").getD 1 "" else ""
  let localPart := if hasAt then (email.splitOn "@").getD 0 "" else ""
  let s1 : ℚ := if freeDomains.contains domain then 0.9 - 0.3 else 0.9
  let s2 := if rolePatterns.any (fun p => containsSub p.data localPart.data) then s1 - 0.2 else s1
  ratMax s2 0.1

/-- Python `round(x, 1)`: round-half-to-even at one decimal. -/
def pyRound (x : ℚ) : ℤ :=
  if x - ratFloor x < 1/2 then ratFloor x
  else if 1/2 < x - ratFloor x then ratFloor x + 1
  else if ratFloor x % 2 = 0 then ratFloor x else ratFloor x + 1

/-- `round(x, 1)` itself. -/
def pyRound1 (x : ℚ) : ℚ := (pyRound (10 * x) : ℚ) / 10

/-- The weighted TrustScore combination of `calculate_trustscore` (lines
40-48 of src/scoring.py), including the final `round(·, 1)`. -/
def trustFormula (relationship intent story deliverability engagement : ℚ) : ℚ :=
  pyRound1 (100 * (0.25 * relationship + 0.25 * intent + 0.20 * story +
    0.15 * deliverability + 0.15 * engagement))

/-- Model of `calculate_trustscore`: computes the five sub-scores (consuming
the random draws in `r`) and combines them with `trustFormula`. -/
def calculateTrustscore (prospect : Prospect) (profile : Option LinkedInProfile)
    (now : Int) (signal : Option Signal) (r : TrustRand) : ℚ :=
  trustFormula
    (calculateRelationshipScore prospect profile r.shared r.prevInteraction)
    (calculateIntentFreshness now signal)
    (calculateStoryQuality prospect signal)
    (calculateDeliverability prospect)
    r.engagement

/-- The breakdown dict `get_trust_components` returns. -/
structure TrustComponents where
  relationship : ℚ
  intent_freshness : ℚ
  story_quality : ℚ
  deliverability : ℚ
  engagement : ℚ
  total : ℚ
deriving DecidableEq

/-- Model of `get_trust_components`: every dict entry is computed afresh —
`relationship` and `engagement` consume the draws in `componentsRand`, while
`total` calls `calculate_trustscore`, which re-draws everything
(`totalRand`), exactly as the Python function re-invokes the random
source. -/
def getTrustComponents (prospect : Prospect) (profile : Option LinkedInProfile)
    (now : Int) (signal : Option Signal) (componentsRand totalRand : TrustRand) :
    TrustComponents :=
  { relationship :=
      calculateRelationshipScore prospect profile componentsRand.shared
        componentsRand.prevInteraction
    intent_freshness := calculateIntentFreshness now signal
    story_quality := calculateStoryQuality prospect signal
    deliverability := calculateDeliverability prospect
    engagement := componentsRand.engagement
    total := calculateTrustscore prospect profile now signal totalRand }

/-- The prospect used in concrete scoring evaluations: empty title and
email. -/
def blankProspect : Prospect := { title := "", email := "" }

/-- Random draws used for the components dict in the C5 evaluation. -/
def compRandA : TrustRand := { shared := 0, prevInteraction := false, engagement := 0.3 }

/-- Random draws consumed by the nested `calculate_trustscore` call. -/
def totalRandA : TrustRand := { shared := 0, prevInteraction := false, engagement := 0.9 }

/-! ### The claims -/

/-- C3: spam-risk computation is claimed total on every body, the empty body
being treated as capitalization ratio 0.  The code instead divides by
`len(body)` unguarded, so an empty body raises `ZeroDivisionError` (`none`);
for nonempty bodies the +2 penalty is applied exactly when the upper-case
ratio exceeds 3/10, as the concrete evaluations show. -/
theorem checkSpamScore_empty_body_faults :
    checkSpamScore ("Hello") ("") = none ∧
    checkSpamScore ("Hello") ("AAAA bbbb") = some 2 ∧
    checkSpamScore ("Hello") ("aaaa bbbb") = some 0 := by
  refine ⟨rfl, ?_, ?_⟩ <;>
  · norm_num [checkSpamScore, ratMax,
      show ("Hello".length) = 5 from rfl,
      show pyIsUpper ("Hello") = false from rfl,
      show (spamWords.any fun w => containsSub w.data (toLowerL ("Hello".data))) = false from rfl,
      show ("AAAA bbbb".length) = 9 from rfl,
      show ("aaaa bbbb".length) = 9 from rfl,
      show ("AAAA bbbb".data.countP fun c => c.isUpper) = 4 from rfl,
      show ("aaaa bbbb".data.countP fun c => c.isUpper) = 0 from rfl,
      spamPhrases,
      show containsSub ("click here".data) (toLowerL ("AAAA bbbb".data)) = false from rfl,
      show containsSub ("act now".data) (toLowerL ("AAAA bbbb".data)) = false from rfl,
      show containsSub ("limited time".data) (toLowerL ("AAAA bbbb".data)) = false from rfl,
      show containsSub ("risk free".data) (toLowerL ("AAAA bbbb".data)) = false from rfl,
      show containsSub ("click here".data) (toLowerL ("aaaa bbbb".data)) = false from rfl,
      show containsSub ("act now".data) (toLowerL ("aaaa bbbb".data)) = false from rfl,
      show containsSub ("limited time".data) (toLowerL ("aaaa bbbb".data)) = false from rfl,
      show containsSub ("risk free".data) (toLowerL ("aaaa bbbb".data)) = false from rfl,
      show countOcc ("http".data) (toLowerL ("AAAA bbbb".data)) = 0 from rfl,
      show countOcc ("http".data) (toLowerL ("aaaa bbbb".data)) = 0 from rfl,
      show countOcc ("!".data) (toLowerL ("AAAA bbbb".data)) = 0 from rfl,
      show countOcc ("!".data) (toLowerL ("aaaa bbbb".data)) = 0 from rfl,
      show countOcc ("$".data) (toLowerL ("AAAA bbbb".data)) = 0 from rfl,
      show countOcc ("$".data) (toLowerL ("aaaa bbbb".data)) = 0 from rfl,
      show containsSub ("unsubscribe".data) (toLowerL ("AAAA bbbb".data)) = false from rfl,
      show containsSub ("unsubscribe".data) (toLowerL ("aaaa bbbb".data)) = false from rfl,
      show wordCount ("AAAA bbbb".data) = 2 from rfl,
      show wordCount ("aaaa bbbb".data) = 2 from rfl]

/-- C2: expansion termination is claimed for every pattern with finite
alternative-group nesting.  On the pattern `'\x7d|\x7b'` (zero alternative groups)
the loop guard holds — all three characters are present — yet the regex
matches nothing, so one `re.sub` pass returns the text unchanged and the
`while` loop never terminates: every fuel bound is exhausted, for every
choice oracle and draw counter. -/
theorem processSpintax_diverges_on_hangPattern :
    (∀ pick k, subAux pick k 0 hangPattern.data = (hangPattern.data, k)) ∧
    spintaxGuard hangPattern.data = true ∧
    (∀ pick n k, spintaxFuel pick n k hangPattern.data = none) := by
  refine ⟨fun pick k => rfl, rfl, fun pick n => ?_⟩
  induction n with
  | zero => intro k; rfl
  | succ m ih =>
    intro k
    have hstep : subAux pick k 0 hangPattern.data = (hangPattern.data, k) := rfl
    simp only [spintaxFuel, show spintaxGuard hangPattern.data = true from rfl, if_true, hstep]
    exact ih k

/-- C6: the claim says a variable value containing another variable's
`'\x7bkey\x7d'` token appears verbatim in the output.  With the map
`a ↦ '\x7bb\x7d', b ↦ 'X'` (in that order) and pattern `'\x7ba\x7d'`, the first
replacement produces `'\x7bb\x7d'` and the replacement for the later key `b` then
rewrites it, so the output is `'X'`: the token does not appear verbatim. -/
theorem processSpintax_rescans_later_keys :
    processSpintax [("a", "\x7bb\x7d"), ("b", "X")] (fun _ => 0) 1 ("\x7ba\x7d") = some ("X") ∧
    containsSub ("\x7bb\x7d".data) ("X".data) = false :=
  ⟨rfl, rfl⟩

/-- Helper: a skip counter at least the length of the remaining text consumes
it entirely. -/
theorem replaceAllAux_skip_all (needle rep : List Char) :
    ∀ (t : List Char) (k : Nat), t.length ≤ k → replaceAllAux needle rep k t = [] := by
  intro t
  induction t with
  | nil => intro k _; cases k <;> rfl
  | cons c rest ih =>
    intro k hk
    cases k with
    | zero => simp at hk
    | succ k => exact ih k (Nat.le_of_succ_le_succ hk)

/-- Helper: replacing a nonempty needle inside the needle itself yields the
replacement: the leading occurrence is found and the remainder is consumed. -/
theorem replaceAll_self (n0 : Char) (ntail rep : List Char) :
    replaceAll (n0 :: ntail) rep (n0 :: ntail) = rep := by
  have hpre : (n0 :: ntail).isPrefixOf (n0 :: ntail) = true := by
    simp [List.isPrefixOf_iff_prefix]
  simp only [replaceAll, replaceAllAux, hpre, List.isEmpty_cons, Bool.not_false, Bool.true_and,
    if_true, List.length_cons, Nat.add_sub_cancel]
  rw [replaceAllAux_skip_all (n0 :: ntail) rep ntail ntail.length (Nat.le_refl _)]
  simp

/-- C6 (amended): substitution is one literal `str.replace` per variable, in
map order; replaced text is re-scanned by the replacements of later keys but
not by those of its own or earlier keys.  A value containing the later key
`b`'s token is rewritten to `b`'s value (whatever it is); a value containing
the earlier key `b`'s token survives verbatim; a value containing its own
key's token also survives verbatim. -/
theorem substituteVars_ordered_single_pass (vb : String) :
    substituteVars [("a", "\x7bb\x7d"), ("b", vb)] ("\x7ba\x7d".data) = vb.data ∧
    substituteVars [("b", vb), ("a", "\x7bb\x7d")] ("\x7ba\x7d".data) = ("\x7bb\x7d".data) ∧
    substituteVars [("a", "\x7ba\x7d")] ("\x7ba\x7d".data) = ("\x7ba\x7d".data) := by
  refine ⟨?_, ?_, rfl⟩
  · show replaceAll (varToken "b") vb.data
      (replaceAll (varToken "a") ("\x7bb\x7d".data) ("\x7ba\x7d".data)) = vb.data
    rw [show replaceAll (varToken "a") ("\x7bb\x7d".data) ("\x7ba\x7d".data) = ("\x7bb\x7d".data) from rfl]
    exact replaceAll_self lbrace ("b".data ++ [rbrace]) vb.data
  · rfl

/-- C1: the spec says a terminal message is moved — not copied — into
history.  For the sent outcome this holds (last conjunct).  But when the
third attempt fails, `process_queue` marks the record `failed` and the
clean-up pass deletes it from the active queue without ever appending it to
history: after the sweep the record is in neither store. -/
theorem processQueue_drops_failed_records :
    processQueue 0 okNever [("u", [lostEntry])] [] = ([("u", [])], [], 0) ∧
    storeHasId (processQueue 0 okNever [("u", [lostEntry])] []).1 ("m1") = false ∧
    storeHasId (processQueue 0 okNever [("u", [lostEntry])] []).2.1 ("m1") = false ∧
    (processEntry 0 okNever lostEntry).1.status = "failed" ∧
    processQueue 0 okAlways [("u", [freshEntry])] [] =
      ([("u", [])], [("u", [{ freshEntry with status := "sent", sent_at := some 0 }])], 1) :=
  ⟨rfl, rfl, rfl, rfl, rfl⟩

/-- C4: delivery state-machine monotonicity: `attempts` never decreases
under a sweep; `sent`/`failed` records are never touched again; every
reachable record satisfies `failed ↔ attempts = 3` (with `attempts ≤ 3`);
and a non-terminal failure leaves the record `queued`, rescheduled exactly
one hour after the sweep time. -/
theorem delivery_state_machine :
    (∀ (now : Int) (ok : EmailEntry → Bool) (e : EmailEntry),
        e.attempts ≤ (processEntry now ok e).1.attempts) ∧
    (∀ (now : Int) (ok : EmailEntry → Bool) (e : EmailEntry),
        e.status = "sent" ∨ e.status = "failed" → processEntry now ok e = (e, none, 0)) ∧
    (∀ e, ReachableEntry e → ((e.status = "failed" ↔ e.attempts = 3) ∧ e.attempts ≤ 3)) ∧
    (∀ (now : Int) (ok : EmailEntry → Bool) (e : EmailEntry),
        e.status = "queued" → e.scheduled_for ≤ now → ok e = false → e.attempts + 1 < 3 →
        (processEntry now ok e).1 =
          { e with attempts := e.attempts + 1, scheduled_for := now + 3600 }) := by
  refine ⟨?_, ?_, ?_, ?_⟩
  · intro now ok e
    simp only [processEntry]
    split_ifs <;> simp
  · intro now ok e h
    have hne : e.status ≠ "queued" := by
      rcases h with h | h <;> rw [h] <;> decide
    simp only [processEntry]
    rw [if_pos hne]
  · intro e h
    induction h with
    | enqueued u p s b sc now rand => exact ⟨by simp [mkEntry], by simp [mkEntry]⟩
    | sweep e now ok _ ih =>
      obtain ⟨hiff, hle⟩ := ih
      simp only [processEntry]
      split_ifs with h1 h2 h3 h4
      · exact ⟨hiff, hle⟩
      · dsimp only
        have hq : e.status = "queued" := not_not.mp h1
        have hne3 : e.attempts ≠ 3 := fun hc => by
          rw [hq] at hiff
          exact absurd (hiff.mpr hc) (by decide)
        exact ⟨iff_of_false (by decide) hne3, hle⟩
      · dsimp only
        have hq : e.status = "queued" := not_not.mp h1
        have hne3 : e.attempts ≠ 3 := fun hc => by
          rw [hq] at hiff
          exact absurd (hiff.mpr hc) (by decide)
        exact ⟨iff_of_true rfl (by omega), by omega⟩
      · dsimp only
        have hq : e.status = "queued" := not_not.mp h1
        have hne3 : e.attempts ≠ 3 := fun hc => by
          rw [hq] at hiff
          exact absurd (hiff.mpr hc) (by decide)
        rw [hq]
        exact ⟨iff_of_false (by decide) (by omega), by omega⟩
      · exact ⟨hiff, hle⟩
  · intro now ok e h1 h2 h3 h4
    simp only [processEntry]
    rw [if_neg (by rw [h1]; decide), if_pos h2, if_neg (by rw [h3]; decide),
      if_neg (show ¬(e.attempts + 1 ≥ 3) from by omega)]

/-- C4 witness: the state machine theorem applied to the concrete records
`entQ` (fresh), `entSent` (sent) and `entF3` (failed after three
attempts). -/
theorem delivery_state_machine_witness :
    entQ.attempts ≤ (processEntry 0 okNever entQ).1.attempts ∧
    processEntry 0 okNever entSent = (entSent, none, 0) ∧
    ((entF3.status = "failed" ↔ entF3.attempts = 3) ∧ entF3.attempts ≤ 3) ∧
    (processEntry 0 okNever entQ).1 = { entQ with attempts := 1, scheduled_for := 0 + 3600 } := by
  refine ⟨delivery_state_machine.1 0 okNever entQ,
    delivery_state_machine.2.1 0 okNever entSent (Or.inl rfl),
    delivery_state_machine.2.2.1 entF3 ?_,
    delivery_state_machine.2.2.2 0 okNever entQ rfl (by decide) rfl (by decide)⟩
  exact ReachableEntry.sweep _ 7200 okNever
    (ReachableEntry.sweep _ 3600 okNever
      (ReachableEntry.sweep _ 0 okNever
        (ReachableEntry.enqueued "u" "p" "s" "b" 10 0 0)))

/-- C9: enqueue ids are claimed unique across distinct calls.  The id is a
hash of tenant, prospect and timestamp only, so the two distinct enqueues
`enq1`/`enq2` — same tenant, prospect and `now`, different subject, body,
story score and jitter — receive the same id, while both records (with
different subjects) sit in the queue. -/
theorem queueEmail_id_not_unique :
    enq1.2 = enq2.2 ∧
    storeGet enq2.1.queue ("u") =
      [mkEntry "u" "p" "subject one" "body one" 10 0 5,
       mkEntry "u" "p" "subject two" "body two" 12 0 17] ∧
    (mkEntry "u" "p" "subject one" "body one" 10 0 5).subject ≠
      (mkEntry "u" "p" "subject two" "body two" 12 0 17).subject :=
  ⟨rfl, rfl, by decide⟩

/-- C9 (amended): `queue_email` sets status `queued`, zero attempts and a
scheduled time in `[now+5min, now+30min]` for a jitter draw in `[5, 30]`,
and returns the new record's id — but that id is a deterministic truncated
hash of tenant, prospect and timestamp alone, identical across calls that
share those three values whatever the other arguments or the prior state. -/
theorem queueEmail_postcondition :
    ∀ (st : QState) (u pid subj body : String) (sc now rand : Int),
      5 ≤ rand → rand ≤ 30 →
      (queueEmail st u pid subj body sc now rand).2 = (mkEntry u pid subj body sc now rand).id ∧
      (mkEntry u pid subj body sc now rand).status = "queued" ∧
      (mkEntry u pid subj body sc now rand).attempts = 0 ∧
      now + 5 * 60 ≤ (mkEntry u pid subj body sc now rand).scheduled_for ∧
      (mkEntry u pid subj body sc now rand).scheduled_for ≤ now + 30 * 60 ∧
      ∀ (st2 : QState) (subj2 body2 : String) (sc2 rand2 : Int),
        (queueEmail st2 u pid subj2 body2 sc2 now rand2).2 =
          (queueEmail st u pid subj body sc now rand).2 := by
  intro st u pid subj body sc now rand h5 h30
  refine ⟨rfl, rfl, rfl, ?_, ?_, fun _ _ _ _ _ => rfl⟩
  · show now + 5 * 60 ≤ now + rand * 60
    linarith
  · show now + rand * 60 ≤ now + 30 * 60
    linarith

/-- C9 witness: the postcondition at a concrete enqueue with jitter 5. -/
theorem queueEmail_postcondition_witness :
    (queueEmail ⟨[], []⟩ "u" "p" "s" "b" 10 0 5).2 = (mkEntry "u" "p" "s" "b" 10 0 5).id ∧
    (mkEntry "u" "p" "s" "b" 10 0 5).status = "queued" ∧
    (mkEntry "u" "p" "s" "b" 10 0 5).attempts = 0 ∧
    (0 : Int) + 5 * 60 ≤ (mkEntry "u" "p" "s" "b" 10 0 5).scheduled_for ∧
    (mkEntry "u" "p" "s" "b" 10 0 5).scheduled_for ≤ (0 : Int) + 30 * 60 ∧
    ∀ (st2 : QState) (subj2 body2 : String) (sc2 rand2 : Int),
      (queueEmail st2 "u" "p" subj2 body2 sc2 0 rand2).2 =
        (queueEmail ⟨[], []⟩ "u" "p" "s" "b" 10 0 5).2 :=
  queueEmail_postcondition ⟨[], []⟩ "u" "p" "s" "b" 10 0 5 (by norm_num) (by norm_num)

/-- Updating a key and reading it back gives the new value. -/
theorem storeGet_storeSet_same (s : Store) (k : String) (v : List EmailEntry) :
    storeGet (storeSet s k v) k = v := by
  induction s with
  | nil => simp [storeSet, storeGet]
  | cons kv rest ih =>
    obtain ⟨k0, w⟩ := kv
    by_cases h : k0 = k
    · simp [storeSet, storeGet, h]
    · simp [storeSet, storeGet, h, ih]

/-- Updating a key leaves every other key's value unchanged. -/
theorem storeGet_storeSet_other (s : Store) (k k2 : String) (v : List EmailEntry)
    (h : k2 ≠ k) : storeGet (storeSet s k v) k2 = storeGet s k2 := by
  have h' : k ≠ k2 := Ne.symm h
  induction s with
  | nil => simp [storeSet, storeGet, h']
  | cons kv rest ih =>
    obtain ⟨k0, w⟩ := kv
    by_cases h0 : k0 = k
    · subst h0
      simp [storeSet, storeGet, h']
    · simp [storeSet, storeGet, h0, ih]

/-- C10: enqueue never rejects and has a minimal frame: it appends exactly
one record to the tenant's own list and returns that record's id; the
history store and every other tenant's list are untouched; and no duplicate
check exists — a second enqueue for the same tenant and prospect appends
again. -/
theorem queueEmail_frame :
    ∀ (st : QState) (u pid subj body : String) (sc now rand : Int),
      (queueEmail st u pid subj body sc now rand).1.history = st.history ∧
      storeGet (queueEmail st u pid subj body sc now rand).1.queue u =
        storeGet st.queue u ++ [mkEntry u pid subj body sc now rand] ∧
      (queueEmail st u pid subj body sc now rand).2 =
        (mkEntry u pid subj body sc now rand).id ∧
      (∀ v, v ≠ u →
        storeGet (queueEmail st u pid subj body sc now rand).1.queue v = storeGet st.queue v) ∧
      (storeGet (queueEmail (queueEmail st u pid subj body sc now rand).1
          u pid subj body sc now rand).1.queue u).length =
        (storeGet st.queue u).length + 2 := by
  intro st u pid subj body sc now rand
  refine ⟨rfl, storeGet_storeSet_same _ _ _, rfl, fun v hv => storeGet_storeSet_other _ _ _ _ hv, ?_⟩
  show (storeGet (storeSet (storeSet st.queue u _) u
    (storeGet (storeSet st.queue u (storeGet st.queue u ++ [_])) u ++ [_])) u).length = _
  rw [storeGet_storeSet_same, storeGet_storeSet_same]
  simp

/-- C10 witness: the frame theorem's other-tenant clause at a concrete
state and a distinct tenant id. -/
theorem queueEmail_frame_witness :
    storeGet (queueEmail ⟨[], []⟩ "u" "p" "s" "b" 10 0 5).1.queue ("v") =
      storeGet ([] : Store) ("v") :=
  (queueEmail_frame ⟨[], []⟩ "u" "p" "s" "b" 10 0 5).2.2.2.1 "v" (by decide)

/-- C8: the `/send-email` gate: when the spam score computes to `s`, the
message is rejected exactly when `s > 5` — returning the typed failure and
leaving the state untouched — and is enqueued via `queue_email`
otherwise. -/
theorem sendEmail_gate :
    ∀ (st : QState) (u pid subj body : String) (now rand : Int) (s : ℚ),
      checkSpamScore subj body = some s →
      (s > 5 → sendEmail st u pid subj body now rand = Except.ok (st, false, none)) ∧
      (¬ s > 5 → sendEmail st u pid subj body now rand =
        Except.ok ((queueEmail st u pid subj body (mockStoryscore body) now rand).1, true,
          some (queueEmail st u pid subj body (mockStoryscore body) now rand).2)) := by
  intro st u pid subj body now rand s h
  constructor
  · intro hgt
    simp only [sendEmail, h]
    rw [if_pos hgt]
  · intro hle
    simp only [sendEmail, h]
    rw [if_neg hle]

/-- C8 witness: a concrete rejection (`'FREE OFFER'`/`'AAAA'`, score 7) and
a concrete acceptance (`'hello'`/`'hi there'`, score 0). -/
theorem sendEmail_gate_witness :
    sendEmail ⟨[], []⟩ "u" "p" "FREE OFFER" "AAAA" 0 5 = Except.ok (⟨[], []⟩, false, none) ∧
    sendEmail ⟨[], []⟩ "u" "p" "hello" "hi there" 0 5 =
      Except.ok ((queueEmail ⟨[], []⟩ "u" "p" "hello" "hi there"
          (mockStoryscore ("hi there")) 0 5).1, true,
        some (queueEmail ⟨[], []⟩ "u" "p" "hello" "hi there"
          (mockStoryscore ("hi there")) 0 5).2) := by
  have h1 : checkSpamScore ("FREE OFFER") ("AAAA") = some 7 := by
    norm_num [checkSpamScore, ratMax,
      show ("FREE OFFER".length) = 10 from rfl,
      show pyIsUpper ("FREE OFFER") = true from rfl,
      show (spamWords.any fun w => containsSub w.data (toLowerL ("FREE OFFER".data))) = true from rfl,
      show ("AAAA".length) = 4 from rfl,
      show ("AAAA".data.countP fun c => c.isUpper) = 4 from rfl,
      spamPhrases,
      show containsSub ("click here".data) (toLowerL ("AAAA".data)) = false from rfl,
      show containsSub ("act now".data) (toLowerL ("AAAA".data)) = false from rfl,
      show containsSub ("limited time".data) (toLowerL ("AAAA".data)) = false from rfl,
      show containsSub ("risk free".data) (toLowerL ("AAAA".data)) = false from rfl,
      show countOcc ("http".data) (toLowerL ("AAAA".data)) = 0 from rfl,
      show countOcc ("!".data) (toLowerL ("AAAA".data)) = 0 from rfl,
      show countOcc ("$".data) (toLowerL ("AAAA".data)) = 0 from rfl,
      show containsSub ("unsubscribe".data) (toLowerL ("AAAA".data)) = false from rfl,
      show wordCount ("AAAA".data) = 1 from rfl]
  have h2 : checkSpamScore ("hello") ("hi there") = some 0 := by
    norm_num [checkSpamScore, ratMax,
      show ("hello".length) = 5 from rfl,
      show pyIsUpper ("hello") = false from rfl,
      show (spamWords.any fun w => containsSub w.data (toLowerL ("hello".data))) = false from rfl,
      show ("hi there".length) = 8 from rfl,
      show ("hi there".data.countP fun c => c.isUpper) = 0 from rfl,
      spamPhrases,
      show containsSub ("click here".data) (toLowerL ("hi there".data)) = false from rfl,
      show containsSub ("act now".data) (toLowerL ("hi there".data)) = false from rfl,
      show containsSub ("limited time".data) (toLowerL ("hi there".data)) = false from rfl,
      show containsSub ("risk free".data) (toLowerL ("hi there".data)) = false from rfl,
      show countOcc ("http".data) (toLowerL ("hi there".data)) = 0 from rfl,
      show countOcc ("!".data) (toLowerL ("hi there".data)) = 0 from rfl,
      show countOcc ("$".data) (toLowerL ("hi there".data)) = 0 from rfl,
      show containsSub ("unsubscribe".data) (toLowerL ("hi there".data)) = false from rfl,
      show wordCount ("hi there".data) = 2 from rfl]
  exact ⟨(sendEmail_gate ⟨[], []⟩ "u" "p" "FREE OFFER" "AAAA" 0 5 7 h1).1 (by norm_num),
    (sendEmail_gate ⟨[], []⟩ "u" "p" "hello" "hi there" 0 5 0 h2).2 (by norm_num)⟩

/-- The LinkedIn trust score is clamped into [0, 100]. -/
theorem calculateLinkedinTrustScore_bounds (p : LinkedInProfile) :
    0 ≤ calculateLinkedinTrustScore p ∧ calculateLinkedinTrustScore p ≤ 100 := by
  unfold calculateLinkedinTrustScore intMin intMax
  split_ifs <;> omega

/-- `min(x, 1.0)` of a nonnegative score is in [0, 1]. -/
theorem ratMin_one_bounds (x : ℚ) (hx : 0 ≤ x) : 0 ≤ ratMin x 1 ∧ ratMin x 1 ≤ 1 := by
  unfold ratMin
  split_ifs with h
  · exact ⟨hx, h⟩
  · exact ⟨by norm_num, le_refl 1⟩

/-- The relationship sub-score lies in [0, 1] for every prospect, profile
and draw. -/
theorem calculateRelationshipScore_bounds (p : Prospect) (prof : Option LinkedInProfile)
    (shared : Nat) (prev : Bool) :
    0 ≤ calculateRelationshipScore p prof shared prev ∧
      calculateRelationshipScore p prof shared prev ≤ 1 := by
  have hmin : (0 : ℚ) ≤ ((min shared 3 : Nat) : ℚ) := Nat.cast_nonneg _
  rcases prof with _ | lp
  · simp only [calculateRelationshipScore]
    refine ratMin_one_bounds _ ?_
    split_ifs <;> linarith
  · simp only [calculateRelationshipScore]
    have h1 := (calculateLinkedinTrustScore_bounds lp).1
    have h2 : (0 : ℚ) ≤ ((calculateLinkedinTrustScore lp : ℚ) / 100) * 0.25 := by
      have hc : (0 : ℚ) ≤ (calculateLinkedinTrustScore lp : ℚ) := by exact_mod_cast h1
      have := div_nonneg hc (by norm_num : (0 : ℚ) ≤ 100)
      nlinarith
    refine ratMin_one_bounds _ ?_
    split_ifs <;> linarith

/-- The intent-freshness sub-score lies in [0, 1]. -/
theorem calculateIntentFreshness_bounds (now : Int) (sg : Option Signal) :
    0 ≤ calculateIntentFreshness now sg ∧ calculateIntentFreshness now sg ≤ 1 := by
  rcases sg with _ | s
  · norm_num [calculateIntentFreshness]
  · rcases s with ⟨ts, ms⟩
    rcases ts with _ | t
    · norm_num [calculateIntentFreshness]
    · simp only [calculateIntentFreshness]
      split_ifs <;> norm_num

/-- The deliverability sub-score lies in [0, 1] (indeed in [0.1, 0.9]). -/
theorem calculateDeliverability_bounds (p : Prospect) :
    0 ≤ calculateDeliverability p ∧ calculateDeliverability p ≤ 1 := by
  simp only [calculateDeliverability]
  unfold ratMax
  split_ifs <;> norm_num

/-- C5 counterexample: the returned `total` is not the weighted combination
of the returned components.  With the engagement draw 0.3 in the dict and
0.9 inside the nested `calculate_trustscore` call, the breakdown reads
total = 49.5 while the weighted sum of the returned components is 40.5. -/
theorem getTrustComponents_total_mismatch :
    (getTrustComponents blankProspect none 0 none compRandA totalRandA).total ≠
      100 * (0.25 * (getTrustComponents blankProspect none 0 none compRandA totalRandA).relationship +
        0.25 * (getTrustComponents blankProspect none 0 none compRandA totalRandA).intent_freshness +
        0.20 * (getTrustComponents blankProspect none 0 none compRandA totalRandA).story_quality +
        0.15 * (getTrustComponents blankProspect none 0 none compRandA totalRandA).deliverability +
        0.15 * (getTrustComponents blankProspect none 0 none compRandA totalRandA).engagement) := by
  norm_num [getTrustComponents, calculateTrustscore, trustFormula, pyRound1, pyRound, ratFloor,
    calculateRelationshipScore, calculateIntentFreshness, calculateStoryQuality,
    calculateDeliverability, ratMin, ratMax, compRandA, totalRandA, blankProspect,
    freeDomains, rolePatterns, seniorityKeywords,
    show containsSub ("alumni".data) (toLowerL ("".data)) = false from rfl,
    show containsSub ("director".data) (toLowerL ("".data)) = false from rfl,
    show containsSub ("vp".data) (toLowerL ("".data)) = false from rfl,
    show containsSub ("head of".data) (toLowerL ("".data)) = false from rfl,
    show containsSub ("manager".data) (toLowerL ("".data)) = false from rfl,
    show containsSub ("@".data) ("".data) = false from rfl,
    show containsSub ("info".data) ("".data) = false from rfl,
    show containsSub ("contact".data) ("".data) = false from rfl,
    show containsSub ("admin".data) ("".data) = false from rfl,
    show containsSub ("sales".data) ("".data) = false from rfl,
    show ("" : String) ≠ "gmail.com" from by decide,
    show ("" : String) ≠ "yahoo.com" from by decide,
    show ("" : String) ≠ "hotmail.com" from by decide,
    show ("" : String) ≠ "outlook.com" from by decide]

/-- C5 (amended): the five TrustScore weights sum to exactly 1 (combining
equal sub-scores `c` gives `round(100·c, 1)`); each sub-score lies in [0, 1]
(for the story component given `match_score ∈ [0, 1]`, and for the
engagement placeholder given its draw lies in [0.3, 0.9]); and the returned
`total` equals `calculate_trustscore` evaluated on its own independent
draws — not the weighted combination of the returned components. -/
theorem trustscore_weights_and_bounds :
    (∀ c : ℚ, trustFormula c c c c c = pyRound1 (100 * c)) ∧
    (∀ (p : Prospect) (prof : Option LinkedInProfile) (shared : Nat) (prev : Bool),
      0 ≤ calculateRelationshipScore p prof shared prev ∧
        calculateRelationshipScore p prof shared prev ≤ 1) ∧
    (∀ (now : Int) (sg : Option Signal),
      0 ≤ calculateIntentFreshness now sg ∧ calculateIntentFreshness now sg ≤ 1) ∧
    (∀ (p : Prospect) (sg : Option Signal),
      (∀ s, sg = some s → 0 ≤ s.match_score.getD 0.5 ∧ s.match_score.getD 0.5 ≤ 1) →
      0 ≤ calculateStoryQuality p sg ∧ calculateStoryQuality p sg ≤ 1) ∧
    (∀ p : Prospect, 0 ≤ calculateDeliverability p ∧ calculateDeliverability p ≤ 1) ∧
    (∀ (p : Prospect) (prof : Option LinkedInProfile) (now : Int) (sg : Option Signal)
        (cr tr : TrustRand),
      (3/10 ≤ cr.engagement → cr.engagement ≤ 9/10 →
        0 ≤ (getTrustComponents p prof now sg cr tr).engagement ∧
          (getTrustComponents p prof now sg cr tr).engagement ≤ 1) ∧
      (getTrustComponents p prof now sg cr tr).total =
        calculateTrustscore p prof now sg tr) := by
  refine ⟨?_, calculateRelationshipScore_bounds, calculateIntentFreshness_bounds, ?_,
    calculateDeliverability_bounds, ?_⟩
  · intro c
    unfold trustFormula
    rw [show (100:ℚ) * (0.25 * c + 0.25 * c + 0.20 * c + 0.15 * c + 0.15 * c) = 100 * c by ring]
  · intro p sg hms
    rcases sg with _ | s
    · simp only [calculateStoryQuality]
      refine ratMin_one_bounds _ ?_
      split_ifs <;> norm_num
    · obtain ⟨hm0, hm1⟩ := hms s rfl
      simp only [calculateStoryQuality]
      refine ratMin_one_bounds _ ?_
      split_ifs <;> linarith
  · intro p prof now sg cr tr
    exact ⟨fun h1 h2 => ⟨by simpa [getTrustComponents] using by linarith,
      by simpa [getTrustComponents] using by linarith⟩, rfl⟩

/-- C5 witness: the weight identity at sub-score 1/2, the story bound at the
no-signal prospect, and the engagement/total clauses at the concrete draws
`compRandA`/`totalRandA`. -/
theorem trustscore_weights_and_bounds_witness :
    trustFormula (1/2) (1/2) (1/2) (1/2) (1/2) = pyRound1 (100 * (1/2)) ∧
    (0 ≤ calculateStoryQuality blankProspect none ∧
      calculateStoryQuality blankProspect none ≤ 1) ∧
    (0 ≤ (getTrustComponents blankProspect none 0 none compRandA totalRandA).engagement ∧
      (getTrustComponents blankProspect none 0 none compRandA totalRandA).engagement ≤ 1) ∧
    (getTrustComponents blankProspect none 0 none compRandA totalRandA).total =
      calculateTrustscore blankProspect none 0 none totalRandA := by
  have h := trustscore_weights_and_bounds
  refine ⟨h.1 (1/2), h.2.2.2.1 blankProspect none (fun s hs => nomatch hs), ?_, ?_⟩
  · exact (h.2.2.2.2.2 blankProspect none 0 none compRandA totalRandA).1
      (by norm_num [compRandA]) (by norm_num [compRandA])
  · exact (h.2.2.2.2.2 blankProspect none 0 none compRandA totalRandA).2

/-- C7: intent freshness is the claimed step function of the signal age in
whole days: 0.2 with no signal; 0.3 when the timestamp did not parse; 1.0,
0.9, 0.7, 0.5, 0.3, 0.1 on the day bands; and a signal stamped exactly two
days before now lands in the second band with value 0.9 exactly. -/
theorem calculateIntentFreshness_step :
    (∀ now : Int, calculateIntentFreshness now none = 0.2) ∧
    (∀ (now : Int) (ms : Option ℚ),
      calculateIntentFreshness now (some { timestamp := none, match_score := ms }) = 0.3) ∧
    (∀ (now t : Int) (ms : Option ℚ),
      (Int.fdiv (now - t) 86400 ≤ 1 →
        calculateIntentFreshness now (some { timestamp := some t, match_score := ms }) = 1.0) ∧
      (1 < Int.fdiv (now - t) 86400 → Int.fdiv (now - t) 86400 ≤ 3 →
        calculateIntentFreshness now (some { timestamp := some t, match_score := ms }) = 0.9) ∧
      (3 < Int.fdiv (now - t) 86400 → Int.fdiv (now - t) 86400 ≤ 7 →
        calculateIntentFreshness now (some { timestamp := some t, match_score := ms }) = 0.7) ∧
      (7 < Int.fdiv (now - t) 86400 → Int.fdiv (now - t) 86400 ≤ 14 →
        calculateIntentFreshness now (some { timestamp := some t, match_score := ms }) = 0.5) ∧
      (14 < Int.fdiv (now - t) 86400 → Int.fdiv (now - t) 86400 ≤ 30 →
        calculateIntentFreshness now (some { timestamp := some t, match_score := ms }) = 0.3) ∧
      (30 < Int.fdiv (now - t) 86400 →
        calculateIntentFreshness now (some { timestamp := some t, match_score := ms }) = 0.1)) ∧
    (∀ (now : Int) (ms : Option ℚ),
      calculateIntentFreshness now
        (some { timestamp := some (now - 2 * 86400), match_score := ms }) = 0.9) := by
  refine ⟨fun now => rfl, fun now ms => rfl, ?_, ?_⟩
  · intro now t ms
    refine ⟨?_, ?_, ?_, ?_, ?_, ?_⟩
    · intro h1
      simp only [calculateIntentFreshness]
      rw [if_pos h1]
    · intro h1 h2
      simp only [calculateIntentFreshness]
      rw [if_neg (by omega), if_pos h2]
    · intro h1 h2
      simp only [calculateIntentFreshness]
      rw [if_neg (by omega), if_neg (by omega), if_pos h2]
    · intro h1 h2
      simp only [calculateIntentFreshness]
      rw [if_neg (by omega), if_neg (by omega), if_neg (by omega), if_pos h2]
    · intro h1 h2
      simp only [calculateIntentFreshness]
      rw [if_neg (by omega), if_neg (by omega), if_neg (by omega), if_neg (by omega), if_pos h2]
    · intro h1
      simp only [calculateIntentFreshness]
      rw [if_neg (by omega), if_neg (by omega), if_neg (by omega), if_neg (by omega),
        if_neg (by omega)]
  · intro now ms
    simp only [calculateIntentFreshness]
    rw [show now - (now - 2 * 86400) = 172800 by ring]
    norm_num [show Int.fdiv 172800 86400 = 2 from rfl]

/-- C7 witness: the band clauses of the step theorem at signals aged five
days (0.7) and exactly two days (0.9). -/
theorem calculateIntentFreshness_step_witness :
    calculateIntentFreshness 432000 (some { timestamp := some 0, match_score := none }) = 0.7 ∧
    calculateIntentFreshness 172800 (some { timestamp := some 0, match_score := none }) = 0.9 :=
  ⟨(calculateIntentFreshness_step.2.2.1 432000 0 none).2.2.1 (by decide) (by decide),
   (calculateIntentFreshness_step.2.2.1 172800 0 none).2.1 (by decide) (by decide)⟩

/-- C2 witness: the divergence theorem instantiated at a concrete oracle,
fuel and draw counter. -/
theorem processSpintax_diverges_on_hangPattern_witness :
    spintaxFuel (fun _ => 0) 3 0 hangPattern.data = none :=
  processSpintax_diverges_on_hangPattern.2.2 (fun _ => 0) 3 0

/-- C6 witness: the ordered-single-pass theorem at the concrete value
`'X'`. -/
theorem substituteVars_ordered_single_pass_witness :
    substituteVars [("a", "\x7bb\x7d"), ("b", "X")] ("\x7ba\x7d".data) = ("X".data) ∧
    substituteVars [("b", "X"), ("a", "\x7bb\x7d")] ("\x7ba\x7d".data) = ("\x7bb\x7d".data) ∧
    substituteVars [("a", "\x7ba\x7d")] ("\x7ba\x7d".data) = ("\x7ba\x7d".data) :=
  substituteVars_ordered_single_pass ("X")
